import Mathlib

/-!
Verification of the interio-ai suggestion-and-cost core.

Shallow embedding of `cost_estimator.py` (class `CostEstimator`),
`suggestion_engine.py` (class `InteriorSuggestionEngine`) and
`interioai_complete.py` (`InterioAIComplete._convert_to_inr`).

Conventions of the embedding:
* Python strings are Lean `String`s; `a in b` (substring test) is `isSub a b`;
  `s.lower()` is `pyLower`; `s.strip()` is `pyStrip`; `s.title()` is
  `pyTitle` (these are kernel-computable models of the CPython string
  methods, restricted to ASCII as the catalogs are).
* Python dicts written as literals with fixed keys become structures
  (`PriceEntry`, `FurnitureRequirement`, `CostBreakdown`, ...); dicts used as
  keyed tables become association lists in declaration order, looked up with
  `List.lookup` (Python dict preserves insertion order).
* Money amounts are `ℚ` (the source mixes ints and the float results of
  `subtotal * 0.10`; rationals model that arithmetic exactly).
* `max(xs, key=lambda x: x[1])` is `pyMax` (first maximum wins, as in CPython).
* A second, `Except`-valued model (`estimate_costE`, `analyze_roomE`) keeps
  every Python dict subscript and `max()` call as a fallible operation, to
  state that the code never raises.
-/

namespace InterioAI

/-- Does the first character list occur at the head of the second one. -/
def leadMatch : List Char → List Char → Bool
  | [], _ => true
  | _ :: _, [] => false
  | a :: as, b :: bs => a == b && leadMatch as bs

/-- Contiguous-sublist test on character lists. -/
def hasSubList (n : List Char) : List Char → Bool
  | [] => n.isEmpty
  | c :: hs => leadMatch n (c :: hs) || hasSubList n hs

/-- Python `a in b` on strings: `a` is a contiguous substring of `b`. -/
def isSub (a b : String) : Bool := hasSubList a.data b.data

/-- Python `s.lower()` (ASCII): lowercase every character. -/
def pyLower (s : String) : String := ⟨s.data.map Char.toLower⟩

/-- Python `s.strip()`: remove leading and trailing whitespace. -/
def pyStrip (s : String) : String :=
  ⟨((s.data.dropWhile Char.isWhitespace).reverse.dropWhile Char.isWhitespace).reverse⟩

/-- Helper for `pyTitle`: the Boolean argument records whether the previous
character was cased (alphabetic), mirroring CPython `str.title` for ASCII. -/
def pyTitleAux : Bool → List Char → List Char
  | _, [] => []
  | prevCased, c :: cs =>
    (if c.isAlpha then (if prevCased then c.toLower else c.toUpper) else c)
      :: pyTitleAux c.isAlpha cs

/-- Python `s.title()` (ASCII): uppercase a letter that follows a non-letter,
lowercase a letter that follows a letter, leave other characters unchanged. -/
def pyTitle (s : String) : String := ⟨pyTitleAux false s.data⟩

/-- The three recognised budget tiers (`cost_estimator.py` line 107). -/
inductive Tier where
  | budget
  | midRange
  | premium
deriving DecidableEq

/-- The string literal naming each tier in the source. -/
def Tier.str : Tier → String
  | .budget => "budget"
  | .midRange => "mid-range"
  | .premium => "premium"

/-- One value of `self.furniture_prices`: a dict with the three tier keys. -/
structure PriceEntry where
  budget : ℚ
  midRange : ℚ
  premium : ℚ
deriving DecidableEq

/-- Subscripting a price entry with a (already coerced) tier. -/
def PriceEntry.val (e : PriceEntry) : Tier → ℚ
  | .budget => e.budget
  | .midRange => e.midRange
  | .premium => e.premium

/-- Shorthand constructor used to keep the catalog readable. -/
def pe (b m p : ℚ) : PriceEntry := ⟨b, m, p⟩

/-- `CostEstimator.furniture_prices` (`cost_estimator.py` lines 13-90), in
declaration order.  The source declares the key `'vanity'` twice (in the
Bedroom block, line 33, and again in the Bathroom block, line 62) with the
identical value; a Python dict literal keeps the first position and the last
value, so the table below carries it once, at its first position. -/
def furniture_prices : List (String × PriceEntry) :=
  [("sofa", pe 15000 35000 75000),
   ("coffee table", pe 3000 8000 20000),
   ("tv stand", pe 4000 12000 30000),
   ("armchair", pe 8000 18000 40000),
   ("side table", pe 2000 5000 12000),
   ("floor lamp", pe 1500 4000 10000),
   ("rug", pe 2500 8000 25000),
   ("bookshelf", pe 5000 12000 30000),
   ("ottoman", pe 4000 9000 20000),
   ("console table", pe 6000 15000 35000),
   ("bed", pe 12000 30000 80000),
   ("nightstand", pe 3000 7000 18000),
   ("wardrobe", pe 15000 35000 90000),
   ("dresser", pe 8000 18000 45000),
   ("bedside lamp", pe 1000 3000 8000),
   ("mirror", pe 2000 5000 15000),
   ("vanity", pe 10000 25000 60000),
   ("reading chair", pe 6000 15000 35000),
   ("bench", pe 4000 10000 25000),
   ("reading lamp", pe 1500 4000 10000),
   ("dining table", pe 10000 25000 65000),
   ("dining chair", pe 2000 5000 12000),
   ("dining chairs", pe 8000 20000 48000),
   ("bar stool", pe 2000 5000 12000),
   ("bar stools", pe 6000 15000 36000),
   ("pendant light", pe 2000 6000 18000),
   ("pendant lights", pe 5000 15000 45000),
   ("kitchen island", pe 20000 45000 100000),
   ("sideboard", pe 12000 30000 75000),
   ("wine rack", pe 3000 8000 20000),
   ("bar cart", pe 5000 12000 30000),
   ("chairs", pe 6000 15000 36000),
   ("desk", pe 8000 18000 45000),
   ("office chair", pe 6000 15000 40000),
   ("filing cabinet", pe 5000 12000 28000),
   ("desk lamp", pe 1200 3500 9000),
   ("credenza", pe 15000 35000 80000),
   ("study desk", pe 7000 16000 40000),
   ("chair", pe 3000 8000 20000),
   ("storage cabinet", pe 6000 15000 35000),
   ("towel rack", pe 800 2000 5000),
   ("bath mat", pe 500 1500 4000),
   ("decorative shelf", pe 2000 5000 12000),
   ("plant stand", pe 1500 4000 10000),
   ("puja shelf", pe 5000 12000 30000),
   ("wooden puja mandir", pe 10000 25000 65000),
   ("deity idols", pe 2000 5000 15000),
   ("diya stand", pe 1000 3000 8000),
   ("brass diya", pe 800 2000 6000),
   ("prayer mat", pe 500 1500 4000),
   ("incense holder", pe 400 1000 3000),
   ("incense stand", pe 600 1500 4000),
   ("prayer bells", pe 800 2500 7000),
   ("traditional rug", pe 3000 10000 30000),
   ("ethnic wall art", pe 2000 6000 18000),
   ("wall art", pe 1500 5000 15000),
   ("centerpiece", pe 1000 3000 9000),
   ("wall shelves", pe 3000 8000 20000),
   ("toy storage", pe 4000 10000 25000),
   ("play table", pe 5000 12000 28000),
   ("bean bags", pe 2000 5000 12000),
   ("coat rack", pe 2000 5000 12000)]

/-- `self.installation_rate = 0.10` (`cost_estimator.py` line 93). -/
def installation_rate : ℚ := 1 / 10

/-- The tier-coercion at the top of `estimate_cost` (lines 107-108):
an unrecognised `budget_level` silently becomes `mid-range`. -/
def coerceTier (s : String) : Tier :=
  if s = "budget" then .budget
  else if s = "mid-range" then .midRange
  else if s = "premium" then .premium
  else .midRange

/-- Default price for unknown items (`cost_estimator.py` line 142). -/
def defaultCost : Tier → ℚ
  | .budget => 5000
  | .midRange => 12000
  | .premium => 30000

/-- The price resolved for one (already lowercased and stripped) item name
inside the `estimate_cost` loop (lines 116-148): exact dict lookup first,
then first partial (bidirectional substring) match in declaration order,
then the tier default. -/
def priceOf (item_lower : String) (lv : Tier) : ℚ :=
  match furniture_prices.lookup item_lower with
  | some entry => entry.val lv
  | none =>
    match furniture_prices.find? (fun kv => isSub kv.1 item_lower || isSub item_lower kv.1) with
    | some kv => kv.2.val lv
    | none => defaultCost lv

/-- One element of the `items_with_costs` list (lines 119-123). -/
structure LineItem where
  name : String
  cost : ℚ
  quantity : ℕ
deriving DecidableEq

/-- The dict returned by `estimate_cost` (lines 153-160). -/
structure CostBreakdown where
  items : List LineItem
  subtotal : ℚ
  installation : ℚ
  total : ℚ
  currency : String
  budget_level : String
deriving DecidableEq

/-- The line item appended for one input item: every branch of the loop
appends `{'name': item.title(), 'cost': ..., 'quantity': 1}`. -/
def lineOf (lv : Tier) (item : String) : LineItem :=
  { name := pyTitle item, cost := priceOf (pyStrip (pyLower item)) lv, quantity := 1 }

/-- The body of `estimate_cost` after the tier coercion of lines 107-108
(`cost_estimator.py` lines 110-160).  The running `subtotal` accumulator of
the loop is the sum of the line costs. -/
def estimateCore (furniture_items : List String) (lv : Tier) : CostBreakdown :=
  let items_with_costs := furniture_items.map (lineOf lv)
  let subtotal := (items_with_costs.map (fun li => li.cost)).sum
  let installation := subtotal * installation_rate
  { items := items_with_costs
    subtotal := subtotal
    installation := installation
    total := subtotal + installation
    currency := "INR"
    budget_level := lv.str }

/-- `CostEstimator.estimate_cost` (`cost_estimator.py` lines 95-160):
coerce the tier, then run the pricing loop. -/
def estimate_cost (furniture_items : List String) (budget_level : String) : CostBreakdown :=
  estimateCore furniture_items (coerceTier budget_level)

/-- The `'essential'`/`'common'`/`'luxury'` dict owned by one room type
(`suggestion_engine.py` lines 11-42). -/
structure FurnitureRequirement where
  essential : List String
  common : List String
  luxury : List String
deriving DecidableEq

/-- `self.room_furniture['living_room']` (lines 12-16). -/
def livingRoomRules : FurnitureRequirement :=
  { essential := ["sofa", "coffee table", "tv stand"]
    common := ["armchair", "side table", "floor lamp", "rug", "bookshelf"]
    luxury := ["ottoman", "console table", "accent chair"] }

/-- `self.room_furniture['bedroom']` (lines 17-21). -/
def bedroomRules : FurnitureRequirement :=
  { essential := ["bed", "nightstand", "wardrobe"]
    common := ["dresser", "bedside lamp", "rug", "mirror"]
    luxury := ["vanity", "reading chair", "bench"] }

/-- `self.room_furniture['kitchen']` (lines 22-26). -/
def kitchenRules : FurnitureRequirement :=
  { essential := ["dining table", "chairs"]
    common := ["bar stools", "pendant lights", "kitchen island"]
    luxury := ["wine rack", "bar cart"] }

/-- `self.room_furniture['dining_room']` (lines 27-31). -/
def diningRoomRules : FurnitureRequirement :=
  { essential := ["dining table", "dining chairs"]
    common := ["sideboard", "pendant light", "centerpiece", "rug"]
    luxury := ["china cabinet", "bar cart", "wall art"] }

/-- `self.room_furniture['bathroom']` (lines 32-36). -/
def bathroomRules : FurnitureRequirement :=
  { essential := ["vanity", "mirror"]
    common := ["storage cabinet", "towel rack", "bath mat"]
    luxury := ["decorative shelf", "plant stand"] }

/-- `self.room_furniture['office']` (lines 37-41). -/
def officeRules : FurnitureRequirement :=
  { essential := ["desk", "office chair"]
    common := ["bookshelf", "desk lamp", "filing cabinet", "rug"]
    luxury := ["credenza", "reading chair", "wall shelves"] }

/-- `self.room_furniture` (`suggestion_engine.py` lines 11-42), in
declaration order. -/
def room_furniture : List (String × FurnitureRequirement) :=
  [("living_room", livingRoomRules),
   ("bedroom", bedroomRules),
   ("kitchen", kitchenRules),
   ("dining_room", diningRoomRules),
   ("bathroom", bathroomRules),
   ("office", officeRules)]

/-- One value of `self.styles` (lines 45-71). -/
structure StyleProfile where
  keywords : List String
  colors : List String
  materials : List String
deriving DecidableEq

/-- `self.styles` (`suggestion_engine.py` lines 45-71), in declaration order.
Only `keywords` is read by any method. -/
def styles : List (String × StyleProfile) :=
  [("modern",
    { keywords := ["modern", "contemporary", "minimalist"]
      colors := ["gray", "white", "black", "navy"]
      materials := ["glass", "metal", "leather"] }),
   ("indian",
    { keywords := ["traditional", "ethnic", "carved", "ornate"]
      colors := ["red", "gold", "maroon", "orange"]
      materials := ["wood", "brass", "silk"] }),
   ("minimalist",
    { keywords := ["simple", "clean", "minimal", "functional"]
      colors := ["white", "beige", "gray"]
      materials := ["wood", "concrete", "linen"] }),
   ("scandinavian",
    { keywords := ["light", "cozy", "natural", "simple"]
      colors := ["white", "light gray", "beige", "pastel"]
      materials := ["light wood", "wool", "cotton"] }),
   ("italian",
    { keywords := ["elegant", "sophisticated", "luxurious"]
      colors := ["cream", "gold", "burgundy"]
      materials := ["marble", "velvet", "leather"] })]

/-- The local `room_indicators` table of `_identify_room_type`
(`suggestion_engine.py` lines 112-119), in declaration order. -/
def room_indicators : List (String × List String) :=
  [("bedroom", ["bed", "nightstand", "dresser", "wardrobe"]),
   ("living_room", ["sofa", "tv stand", "coffee table", "armchair"]),
   ("kitchen", ["stove", "refrigerator", "sink", "kitchen island"]),
   ("dining_room", ["dining table", "dining chair", "sideboard"]),
   ("bathroom", ["toilet", "sink", "bathtub", "shower"]),
   ("office", ["desk", "office chair", "filing cabinet", "bookshelf"])]

/-- Score of one indicator list against the detected objects (line 124):
the number of detected items whose lowercased text contains some indicator. -/
def roomScore (detected_objects : List String) (indicators : List String) : ℕ :=
  (detected_objects.filter
    (fun item => indicators.any (fun ind => isSub ind (pyLower item)))).length

/-- The `scores` dict of `_identify_room_type` (lines 122-126): room types in
declaration order, keeping only strictly positive scores. -/
def roomScores (detected_objects : List String) : List (String × ℕ) :=
  room_indicators.filterMap (fun p =>
    if 0 < roomScore detected_objects p.2
    then some (p.1, roomScore detected_objects p.2) else none)

/-- CPython `max(xs, key=lambda x: x[1])` on a nonempty list: scan left to
right and replace the current best only on a strictly larger key, so the
first maximum wins; `none` on the empty list (where `max` raises). -/
def pyMax (l : List (String × ℕ)) : Option (String × ℕ) :=
  match l with
  | [] => none
  | x :: xs => some (xs.foldl (fun b y => if b.2 < y.2 then y else b) x)

/-- `InteriorSuggestionEngine._identify_room_type` (lines 108-131). -/
def _identify_room_type (detected_objects : List String) : String :=
  match pyMax (roomScores detected_objects) with
  | some m => m.1
  | none => "living_room"

/-- Score of one style's keyword list against the detected objects
(lines 139-145). -/
def styleScore (detected_objects : List String) (profile : StyleProfile) : ℕ :=
  (detected_objects.filter
    (fun obj => profile.keywords.any (fun keyword => isSub keyword (pyLower obj)))).length

/-- The `style_scores` dict of `_identify_style` (lines 137-148). -/
def styleScores (detected_objects : List String) : List (String × ℕ) :=
  styles.filterMap (fun p =>
    if 0 < styleScore detected_objects p.2
    then some (p.1, styleScore detected_objects p.2) else none)

/-- `InteriorSuggestionEngine._identify_style` (lines 133-153). -/
def _identify_style (detected_objects : List String) : String :=
  match pyMax (styleScores detected_objects) with
  | some m => m.1
  | none => "modern"

/-- The bidirectional substring coverage test duplicated at lines 167 and 190:
does some (already lowercased) detected item contain `x` or occur inside `x`. -/
def matchesAny (detected_lower : List String) (x : String) : Bool :=
  detected_lower.any (fun det => isSub x det || isSub det x)

/-- `InteriorSuggestionEngine._find_missing_essentials` (lines 155-170).
The detected items are lowercased only (no strip); the loop over the
essential list keeping unmatched entries is a filter. -/
def _find_missing_essentials (detected_objects : List String) (room_type : String) : List String :=
  match room_furniture.lookup room_type with
  | none => []
  | some rules =>
    rules.essential.filter
      (fun essential => ! matchesAny (detected_objects.map pyLower) essential)

/-- The room-type fallback at the top of `_suggest_additions` (lines 175-176)
followed by the dict subscripts: an unknown room type is replaced by
`'living_room'`, whose entry is `livingRoomRules`. -/
def rulesOf (room_type : String) : FurnitureRequirement :=
  (room_furniture.lookup room_type).getD livingRoomRules

/-- The `suggestions` list of `_suggest_additions` (lines 179-191): the
concatenated essential/common/luxury catalog, keeping items matched by no
detected item. -/
def unmatchedCatalog (detected_objects : List String) (rules : FurnitureRequirement) : List String :=
  (rules.essential ++ rules.common ++ rules.luxury).filter
    (fun furniture => ! matchesAny (detected_objects.map pyLower) furniture)

/-- `InteriorSuggestionEngine._suggest_additions` (lines 172-199): partition
the unmatched catalog back into buckets by list membership (lines 194-196)
and return all essentials, then the first 3 common, then the first 2 luxury. -/
def _suggest_additions (detected_objects : List String) (room_type : String) : List String :=
  (unmatchedCatalog detected_objects (rulesOf room_type)).filter
      (fun s => (rulesOf room_type).essential.contains s)
  ++ ((unmatchedCatalog detected_objects (rulesOf room_type)).filter
      (fun s => (rulesOf room_type).common.contains s)).take 3
  ++ ((unmatchedCatalog detected_objects (rulesOf room_type)).filter
      (fun s => (rulesOf room_type).luxury.contains s)).take 2

/-- The `room_tips` table of `_suggest_layout_improvements` (lines 207-238),
in declaration order. -/
def room_tips : List (String × List String) :=
  [("living_room",
    ["Arrange seating to encourage conversation",
     "Place TV at comfortable viewing distance",
     "Use area rug to define seating area"]),
   ("bedroom",
    ["Position bed as focal point",
     "Ensure adequate lighting with bedside lamps",
     "Create symmetry with matching nightstands"]),
   ("kitchen",
    ["Maintain work triangle between stove, sink, and fridge",
     "Ensure adequate counter space for prep work",
     "Add task lighting above work areas"]),
   ("dining_room",
    ["Center dining table in room",
     "Allow 36 inches clearance around table",
     "Hang pendant light 30-36 inches above table"]),
   ("office",
    ["Position desk near natural light",
     "Ensure ergonomic chair placement",
     "Organize with adequate storage"]),
   ("bathroom",
    ["Maximize storage with cabinets and shelves",
     "Ensure proper ventilation",
     "Use water-resistant materials"])]

/-- `InteriorSuggestionEngine._suggest_layout_improvements` (lines 201-246):
`room_tips.get(room_type, generic)` capped to the first 3 entries. -/
def _suggest_layout_improvements (room_type : String) : List String :=
  ((room_tips.lookup room_type).getD
    ["Ensure good traffic flow",
     "Balance furniture placement",
     "Use appropriate lighting"]).take 3

/-- The `'suggestions'` sub-dict of the analysis result (lines 101-105). -/
structure Suggestions where
  missing_essentials : List String
  add_items : List String
  layout_tips : List String
deriving DecidableEq

/-- The dict returned by `analyze_room` (lines 97-106). -/
structure AnalysisResult where
  room_type : String
  current_style : String
  detected_count : ℕ
  suggestions : Suggestions
deriving DecidableEq

/-- `InteriorSuggestionEngine.analyze_room` (lines 73-106).  The guard
`if force_room_type:` is Python truthiness: both `None` and the empty string
fall through to `_identify_room_type`.  The `print` on line 88 is ignored. -/
def analyze_room (detected_objects : List String) (force_room_type : Option String) : AnalysisResult :=
  let room_type :=
    match force_room_type with
    | some s => if s = "" then _identify_room_type detected_objects else s
    | none => _identify_room_type detected_objects
  { room_type := room_type
    current_style := _identify_style detected_objects
    detected_count := detected_objects.length
    suggestions :=
      { missing_essentials := _find_missing_essentials detected_objects room_type
        add_items := _suggest_additions detected_objects room_type
        layout_tips := _suggest_layout_improvements room_type } }

/-- `InterioAIComplete.USD_TO_INR = 83.0` (`interioai_complete.py` line 27). -/
def USD_TO_INR : ℚ := 83

/-- The dict built by `_convert_to_inr` (lines 253-265); unlike
`CostBreakdown` it carries no `currency` and no `budget_level` key. -/
structure InrBreakdown where
  items : List LineItem
  subtotal : ℚ
  installation : ℚ
  total : ℚ
deriving DecidableEq

/-- `InterioAIComplete._convert_to_inr` (`interioai_complete.py` lines
248-267), with the multiplier `self.USD_TO_INR` as the parameter `rate`.
The `if not cost_breakdown: return None` guard handles a Python `None`
argument, which cannot arise in this typed embedding. -/
def _convert_to_inr (rate : ℚ) (cost_breakdown : CostBreakdown) : InrBreakdown :=
  { items := cost_breakdown.items.map (fun item =>
      { name := item.name, cost := item.cost * rate, quantity := item.quantity })
    subtotal := cost_breakdown.subtotal * rate
    installation := cost_breakdown.installation * rate
    total := cost_breakdown.total * rate }

/-- A sample breakdown (satisfying the §3 invariants) used to witness the
conversion theorem on concrete input. -/
def sampleBreakdown : CostBreakdown :=
  { items := [{ name := "Sofa", cost := 100, quantity := 1 }]
    subtotal := 100
    installation := 10
    total := 110
    currency := "INR"
    budget_level := "mid-range" }

/-! The `Except`-valued model: every Python dict subscript and every `max()`
call is kept as a fallible operation, so "the code never raises" becomes the
provable statement that these functions always return `Except.ok`. -/

/-- Python dict subscript `d[k]` on a keyed table: `KeyError` when absent. -/
def dictGet {α : Type} (d : List (String × α)) (k : String) : Except String α :=
  match d.lookup k with
  | some v => Except.ok v
  | none => Except.error "KeyError"

/-- A price entry as the raw three-key dict it is in the source. -/
def PriceEntry.toAssoc (e : PriceEntry) : List (String × ℚ) :=
  [("budget", e.budget), ("mid-range", e.midRange), ("premium", e.premium)]

/-- The tier coercion of lines 107-108 at the string level. -/
def coerceTierStr (s : String) : String :=
  if s ∈ ["budget", "mid-range", "premium"] then s else "mid-range"

/-- One iteration of the `estimate_cost` loop with raw dict subscripts
(`self.furniture_prices[...][budget_level]` may raise in this model). -/
def lineOfE (bl : String) (item : String) : Except String LineItem :=
  let item_lower := pyStrip (pyLower item)
  match furniture_prices.lookup item_lower with
  | some entry =>
    match dictGet entry.toAssoc bl with
    | Except.ok cost => Except.ok { name := pyTitle item, cost := cost, quantity := 1 }
    | Except.error e => Except.error e
  | none =>
    match furniture_prices.find? (fun kv => isSub kv.1 item_lower || isSub item_lower kv.1) with
    | some kv =>
      match dictGet kv.2.toAssoc bl with
      | Except.ok cost => Except.ok { name := pyTitle item, cost := cost, quantity := 1 }
      | Except.error e => Except.error e
    | none =>
      Except.ok { name := pyTitle item
                  cost := if bl = "budget" then 5000 else if bl = "mid-range" then 12000 else 30000
                  quantity := 1 }

/-- Exception-propagating map over a list, as a Python `for` loop. -/
def mapExcept {α β : Type} (f : α → Except String β) : List α → Except String (List β)
  | [] => Except.ok []
  | a :: as =>
    match f a with
    | Except.ok b =>
      match mapExcept f as with
      | Except.ok bs => Except.ok (b :: bs)
      | Except.error e => Except.error e
    | Except.error e => Except.error e

/-- `estimate_cost` in the `Except` model. -/
def estimate_costE (furniture_items : List String) (budget_level : String) : Except String CostBreakdown :=
  let bl := coerceTierStr budget_level
  match mapExcept (lineOfE bl) furniture_items with
  | Except.error e => Except.error e
  | Except.ok items_with_costs =>
    let subtotal := (items_with_costs.map (fun li => li.cost)).sum
    let installation := subtotal * installation_rate
    Except.ok { items := items_with_costs
                subtotal := subtotal
                installation := installation
                total := subtotal + installation
                currency := "INR"
                budget_level := bl }

/-- CPython `max` raises `ValueError` on an empty sequence. -/
def pyMaxE (l : List (String × ℕ)) : Except String (String × ℕ) :=
  match l with
  | [] => Except.error "ValueError: max() arg is an empty sequence"
  | x :: xs => Except.ok (xs.foldl (fun b y => if b.2 < y.2 then y else b) x)

/-- `_identify_room_type` in the `Except` model: the `if scores:` guard,
then the (fallible) `max`. -/
def _identify_room_typeE (detected_objects : List String) : Except String String :=
  let scores := roomScores detected_objects
  if scores.isEmpty then Except.ok "living_room"
  else
    match pyMaxE scores with
    | Except.ok m => Except.ok m.1
    | Except.error e => Except.error e

/-- `_identify_style` in the `Except` model. -/
def _identify_styleE (detected_objects : List String) : Except String String :=
  let scores := styleScores detected_objects
  if scores.isEmpty then Except.ok "modern"
  else
    match pyMaxE scores with
    | Except.ok m => Except.ok m.1
    | Except.error e => Except.error e

/-- `analyze_room` in the `Except` model.  The helper calls whose dict
subscripts are all guarded in the source (`_find_missing_essentials`,
`_suggest_additions`, `_suggest_layout_improvements`) are total already. -/
def analyze_roomE (detected_objects : List String) (force_room_type : Option String) : Except String AnalysisResult :=
  let rt :=
    match force_room_type with
    | some s => if s = "" then _identify_room_typeE detected_objects else Except.ok s
    | none => _identify_room_typeE detected_objects
  match rt with
  | Except.error e => Except.error e
  | Except.ok room_type =>
    match _identify_styleE detected_objects with
    | Except.error e => Except.error e
    | Except.ok current_style =>
      Except.ok
        { room_type := room_type
          current_style := current_style
          detected_count := detected_objects.length
          suggestions :=
            { missing_essentials := _find_missing_essentials detected_objects room_type
              add_items := _suggest_additions detected_objects room_type
              layout_tips := _suggest_layout_improvements room_type } }

/-- The essential/common/luxury buckets of one rules entry are pairwise
disjoint (true of every entry of `room_furniture`; it is what makes the
partition step of `_suggest_additions` lossless). -/
def bucketsDisjoint (r : FurnitureRequirement) : Prop :=
  (∀ x ∈ r.common, x ∉ r.essential) ∧ (∀ x ∈ r.luxury, x ∉ r.essential)
  ∧ (∀ x ∈ r.essential, x ∉ r.common) ∧ (∀ x ∈ r.luxury, x ∉ r.common)
  ∧ (∀ x ∈ r.essential, x ∉ r.luxury) ∧ (∀ x ∈ r.common, x ∉ r.luxury)

/-! Theorems. -/

/-- C2: for every item list and tier, the breakdown satisfies
`installation = subtotal * 0.10`, `total = subtotal + installation` and
`subtotal = sum of the line-item costs` exactly, and for nonempty input
`total = subtotal * 1.10`. -/
theorem estimate_cost_invariants (items : List String) (tier : String) :
    (estimate_cost items tier).installation = (estimate_cost items tier).subtotal * (1 / 10)
    ∧ (estimate_cost items tier).total
        = (estimate_cost items tier).subtotal + (estimate_cost items tier).installation
    ∧ (estimate_cost items tier).subtotal
        = ((estimate_cost items tier).items.map (fun li => li.cost)).sum
    ∧ (items ≠ [] →
        (estimate_cost items tier).total = (estimate_cost items tier).subtotal * (11 / 10)) := by
  refine ⟨rfl, rfl, rfl, fun _ => ?_⟩
  have h : (estimate_cost items tier).total
      = (estimate_cost items tier).subtotal + (estimate_cost items tier).subtotal * (1 / 10) := rfl
  rw [h]
  ring

/-- Witness for C2 at a concrete nonempty input. -/
theorem estimate_cost_invariants_witness :
    (["sofa"] : List String) ≠ []
    ∧ (estimate_cost ["sofa"] "budget").total
        = (estimate_cost ["sofa"] "budget").subtotal * (11 / 10) :=
  ⟨by decide, (estimate_cost_invariants ["sofa"] "budget").2.2.2 (by decide)⟩

/-- C6: an unrecognised tier string is silently coerced to `mid-range`; the
resulting breakdown is identical in every field. -/
theorem invalid_tier_defaults_to_midrange (items : List String) (tier : String)
    (h : tier ∉ (["budget", "mid-range", "premium"] : List String)) :
    estimate_cost items tier = estimate_cost items "mid-range" := by
  have hc : coerceTier tier = Tier.midRange := by
    simp only [List.mem_cons, List.not_mem_nil, or_false, not_or] at h
    obtain ⟨h1, h2, h3⟩ := h
    simp [coerceTier, h1, h2, h3]
  have hm : coerceTier "mid-range" = Tier.midRange := by decide
  show estimateCore items (coerceTier tier) = estimateCore items (coerceTier "mid-range")
  rw [hc, hm]

/-- Witness for C6 at a concrete invalid tier. -/
theorem invalid_tier_defaults_to_midrange_witness :
    ("luxury" : String) ∉ (["budget", "mid-range", "premium"] : List String)
    ∧ estimate_cost ["sofa"] "luxury" = estimate_cost ["sofa"] "mid-range" :=
  ⟨by decide, invalid_tier_defaults_to_midrange ["sofa"] "luxury" (by decide)⟩

/-- C7: the breakdown has exactly one line item per input element, in input
order, each with quantity 1 and title-cased name; the empty input gives an
empty line list and all-zero amounts. -/
theorem line_items_per_input (items : List String) (tier : String) :
    ((estimate_cost items tier).items.map (fun li => li.name) = items.map pyTitle)
    ∧ ((estimate_cost items tier).items.map (fun li => li.quantity) = items.map (fun _ => 1))
    ∧ ((estimate_cost items tier).items.length = items.length)
    ∧ (items = [] →
        (estimate_cost items tier).items = []
        ∧ (estimate_cost items tier).subtotal = 0
        ∧ (estimate_cost items tier).installation = 0
        ∧ (estimate_cost items tier).total = 0) := by
  refine ⟨?_, ?_, ?_, ?_⟩
  · show (items.map (lineOf (coerceTier tier))).map (fun li => li.name) = items.map pyTitle
    rw [List.map_map]
    rfl
  · show (items.map (lineOf (coerceTier tier))).map (fun li => li.quantity)
        = items.map (fun _ => 1)
    rw [List.map_map]
    rfl
  · show (items.map (lineOf (coerceTier tier))).length = items.length
    rw [List.length_map]
  · rintro rfl
    refine ⟨rfl, rfl, ?_, ?_⟩
    · show ((0 : ℚ)) * installation_rate = 0
      ring
    · show ((0 : ℚ)) + 0 * installation_rate = 0
      ring

lemma coerceTierStr_eq (s : String) : coerceTierStr s = (coerceTier s).str := by
  by_cases h1 : s = "budget"
  · simp [coerceTierStr, coerceTier, h1, Tier.str]
  · by_cases h2 : s = "mid-range"
    · simp [coerceTierStr, coerceTier, h1, h2, Tier.str]
    · by_cases h3 : s = "premium"
      · simp [coerceTierStr, coerceTier, h1, h2, h3, Tier.str]
      · simp [coerceTierStr, coerceTier, h1, h2, h3, Tier.str]

lemma dictGet_toAssoc (e : PriceEntry) (lv : Tier) :
    dictGet e.toAssoc lv.str = Except.ok (e.val lv) := by
  cases lv <;> rfl

lemma defaultCost_str (lv : Tier) :
    (if lv.str = "budget" then (5000 : ℚ)
     else if lv.str = "mid-range" then 12000 else 30000) = defaultCost lv := by
  cases lv <;> rfl

lemma lineOfE_ok (lv : Tier) (item : String) :
    lineOfE lv.str item = Except.ok (lineOf lv item) := by
  simp only [lineOfE, lineOf, priceOf]
  cases h : furniture_prices.lookup (pyStrip (pyLower item)) with
  | some entry => simp [h, dictGet_toAssoc]
  | none =>
    cases h2 : furniture_prices.find?
        (fun kv => isSub kv.1 (pyStrip (pyLower item)) || isSub (pyStrip (pyLower item)) kv.1) with
    | some kv => simp [h, h2, dictGet_toAssoc]
    | none => simp [h, h2, defaultCost_str]

lemma mapExcept_ok {α β : Type} (f : α → Except String β) (g : α → β)
    (hfg : ∀ a, f a = Except.ok (g a)) :
    ∀ l : List α, mapExcept f l = Except.ok (l.map g) := by
  intro l
  induction l with
  | nil => rfl
  | cons a as ih => simp [mapExcept, hfg a, ih]

lemma estimate_costE_ok (items : List String) (tier : String) :
    estimate_costE items tier = Except.ok (estimate_cost items tier) := by
  simp only [estimate_costE, estimate_cost, estimateCore, coerceTierStr_eq]
  rw [mapExcept_ok (lineOfE (coerceTier tier).str) (lineOf (coerceTier tier))
    (lineOfE_ok (coerceTier tier)) items]

lemma _identify_room_typeE_ok (objs : List String) :
    _identify_room_typeE objs = Except.ok (_identify_room_type objs) := by
  simp only [_identify_room_typeE, _identify_room_type]
  cases h : roomScores objs with
  | nil => simp [h, pyMax]
  | cons x xs => simp [h, pyMax, pyMaxE]

lemma _identify_styleE_ok (objs : List String) :
    _identify_styleE objs = Except.ok (_identify_style objs) := by
  simp only [_identify_styleE, _identify_style]
  cases h : styleScores objs with
  | nil => simp [h, pyMax]
  | cons x xs => simp [h, pyMax, pyMaxE]

lemma analyze_roomE_ok (objs : List String) (f : Option String) :
    analyze_roomE objs f = Except.ok (analyze_room objs f) := by
  simp only [analyze_roomE, analyze_room]
  cases f with
  | none => simp [_identify_room_typeE_ok, _identify_styleE_ok]
  | some s =>
    by_cases hs : s = ""
    · simp [hs, _identify_room_typeE_ok, _identify_styleE_ok]
    · simp [hs, _identify_styleE_ok]

/-- C1: with every Python dict subscript and `max()` call modelled as a
fallible operation, both `estimate_cost` and `analyze_room` always return
`ok` (never raise), for arbitrary item labels, tier strings, detected-object
lists and optional forced room types; the value returned is the one given by
the total model, whose fallbacks for unknown inputs the other theorems
describe. -/
theorem core_never_raises (items : List String) (tier : String)
    (objs : List String) (f : Option String) :
    estimate_costE items tier = Except.ok (estimate_cost items tier)
    ∧ analyze_roomE objs f = Except.ok (analyze_room objs f) :=
  ⟨estimate_costE_ok items tier, analyze_roomE_ok objs f⟩

lemma lookup_eq_of_mem {β : Type} (k : String) (v : β) :
    ∀ l : List (String × β), (l.map Prod.fst).Nodup → (k, v) ∈ l → l.lookup k = some v := by
  intro l
  induction l with
  | nil => intro _ hm; cases hm
  | cons p t ih =>
    intro hnd hm
    rcases List.mem_cons.mp hm with h | h
    · rw [← h]
      simp [List.lookup]
    · have hp : p.1 ∉ t.map Prod.fst := (List.nodup_cons.mp hnd).1
      have hkt : k ∈ t.map Prod.fst := List.mem_map.mpr ⟨(k, v), h, rfl⟩
      have hk : (k == p.1) = false := by
        apply beq_eq_false_iff_ne.mpr
        intro hkp
        exact hp (hkp ▸ hkt)
      cases p with
      | mk a b =>
        simp only [List.lookup, hk]
        exact ih (List.nodup_cons.mp hnd).2 h

lemma find?_append_first {α : Type} (P : α → Bool) (L₁ L₂ : List α) (x : α)
    (hx : P x = true) (h₁ : ∀ y ∈ L₁, P y = false) :
    (L₁ ++ x :: L₂).find? P = some x := by
  induction L₁ with
  | nil =>
    simp only [List.nil_append]
    rw [List.find?_cons_of_pos _ hx]
  | cons a t ih =>
    have ha : P a = false := h₁ a (List.mem_cons_self a t)
    rw [List.cons_append, List.find?_cons_of_neg _ (by simp [ha])]
    exact ih (fun y hy => h₁ y (List.mem_cons_of_mem a hy))

lemma furniture_prices_keys_nodup : (furniture_prices.map Prod.fst).Nodup := by decide

/-- C4: the price lookup inside `estimate_cost`: exact catalog hit first,
otherwise the first (in table-declaration order) bidirectional substring
match, otherwise the tier-dependent default; it always yields a price. -/
theorem price_lookup_spec (name : String) (lv : Tier) :
    (∀ e : PriceEntry, (pyStrip (pyLower name), e) ∈ furniture_prices →
        priceOf (pyStrip (pyLower name)) lv = e.val lv)
    ∧ (∀ (L₁ L₂ : List (String × PriceEntry)) (kv : String × PriceEntry),
        furniture_prices.lookup (pyStrip (pyLower name)) = none →
        furniture_prices = L₁ ++ kv :: L₂ →
        (isSub kv.1 (pyStrip (pyLower name)) || isSub (pyStrip (pyLower name)) kv.1) = true →
        (∀ p ∈ L₁, (isSub p.1 (pyStrip (pyLower name)) || isSub (pyStrip (pyLower name)) p.1) = false) →
        priceOf (pyStrip (pyLower name)) lv = kv.2.val lv)
    ∧ (furniture_prices.lookup (pyStrip (pyLower name)) = none →
        (∀ p ∈ furniture_prices,
          (isSub p.1 (pyStrip (pyLower name)) || isSub (pyStrip (pyLower name)) p.1) = false) →
        priceOf (pyStrip (pyLower name)) lv = defaultCost lv)
    ∧ (estimate_cost [name] lv.str).items.map (fun li => li.cost)
        = [priceOf (pyStrip (pyLower name)) lv] := by
  refine ⟨?_, ?_, ?_, ?_⟩
  · intro e hm
    have h := lookup_eq_of_mem (pyStrip (pyLower name)) e furniture_prices
      furniture_prices_keys_nodup hm
    simp [priceOf, h]
  · intro L₁ L₂ kv hnone heq hmatch hfirst
    simp only [priceOf, hnone]
    rw [heq, find?_append_first _ L₁ L₂ kv hmatch hfirst]
  · intro hnone hall
    have hfind : furniture_prices.find?
        (fun kv => isSub kv.1 (pyStrip (pyLower name)) || isSub (pyStrip (pyLower name)) kv.1) = none := by
      rw [List.find?_eq_none]
      intro p hp
      simp [hall p hp]
    simp [priceOf, hnone, hfind]
  · have hc : coerceTier lv.str = lv := by cases lv <;> decide
    show (([name].map (lineOf (coerceTier lv.str))).map (fun li => li.cost)) = _
    rw [hc]
    rfl

/-- Witness for C4: an exact match, a partial match in declaration order,
and an unmatched item falling to the tier default. -/
theorem price_lookup_spec_witness :
    priceOf (pyStrip (pyLower "SOFA ")) Tier.budget = 15000
    ∧ priceOf (pyStrip (pyLower "leather sofa")) Tier.budget = 15000
    ∧ priceOf (pyStrip (pyLower "xyz")) Tier.premium = 30000
    ∧ (estimate_cost ["sofa"] "budget").items.map (fun li => li.cost) = [(15000 : ℚ)] := by
  refine ⟨?_, ?_, ?_, ?_⟩
  · exact ((price_lookup_spec "SOFA " Tier.budget).1 (pe 15000 35000 75000)
      (by decide)).trans (by decide)
  · exact ((price_lookup_spec "leather sofa" Tier.budget).2.1 []
      furniture_prices.tail ("sofa", pe 15000 35000 75000)
      (by decide) (by decide) (by decide) (by decide)).trans (by decide)
  · exact ((price_lookup_spec "xyz" Tier.premium).2.2.1 (by decide) (by decide)).trans (by decide)
  · exact ((price_lookup_spec "sofa" Tier.budget).2.2.2).trans (by decide)

lemma lookup_mem_snd {β : Type} :
    ∀ (l : List (String × β)) (k : String) (v : β),
      l.lookup k = some v → v ∈ l.map Prod.snd := by
  intro l
  induction l with
  | nil => intro k v h; simp [List.lookup] at h
  | cons p t ih =>
    intro k v h
    cases p with
    | mk a b =>
      simp only [List.lookup] at h
      cases hb : (k == a) with
      | true =>
        rw [hb] at h
        simp only [Option.some.injEq] at h
        simp [← h]
      | false =>
        rw [hb] at h
        have := ih k v h
        simp only [List.map_cons, List.mem_cons]
        right
        simpa using this

lemma filter_contains_append3_left (P : String → Bool) (A B C : List String)
    (hB : ∀ b ∈ B, b ∉ A) (hC : ∀ c ∈ C, c ∉ A) :
    ((A ++ B ++ C).filter P).filter (fun s => A.contains s) = A.filter P := by
  rw [List.filter_append, List.filter_append, List.filter_append, List.filter_append]
  have e1 : (A.filter P).filter (fun s => A.contains s) = A.filter P := by
    rw [List.filter_eq_self]
    intro a ha
    simpa using List.mem_of_mem_filter ha
  have e2 : (B.filter P).filter (fun s => A.contains s) = [] := by
    rw [List.filter_eq_nil_iff]
    intro b hb
    simpa using hB b (List.mem_of_mem_filter hb)
  have e3 : (C.filter P).filter (fun s => A.contains s) = [] := by
    rw [List.filter_eq_nil_iff]
    intro c hc
    simpa using hC c (List.mem_of_mem_filter hc)
  rw [e1, e2, e3, List.append_nil, List.append_nil]

lemma filter_contains_append3_mid (P : String → Bool) (A B C : List String)
    (hA : ∀ a ∈ A, a ∉ B) (hC : ∀ c ∈ C, c ∉ B) :
    ((A ++ B ++ C).filter P).filter (fun s => B.contains s) = B.filter P := by
  rw [List.filter_append, List.filter_append, List.filter_append, List.filter_append]
  have e1 : (A.filter P).filter (fun s => B.contains s) = [] := by
    rw [List.filter_eq_nil_iff]
    intro a ha
    simpa using hA a (List.mem_of_mem_filter ha)
  have e2 : (B.filter P).filter (fun s => B.contains s) = B.filter P := by
    rw [List.filter_eq_self]
    intro b hb
    simpa using List.mem_of_mem_filter hb
  have e3 : (C.filter P).filter (fun s => B.contains s) = [] := by
    rw [List.filter_eq_nil_iff]
    intro c hc
    simpa using hC c (List.mem_of_mem_filter hc)
  rw [e1, e2, e3, List.nil_append, List.append_nil]

lemma filter_contains_append3_right (P : String → Bool) (A B C : List String)
    (hA : ∀ a ∈ A, a ∉ C) (hB : ∀ b ∈ B, b ∉ C) :
    ((A ++ B ++ C).filter P).filter (fun s => C.contains s) = C.filter P := by
  rw [List.filter_append, List.filter_append, List.filter_append, List.filter_append]
  have e1 : (A.filter P).filter (fun s => C.contains s) = [] := by
    rw [List.filter_eq_nil_iff]
    intro a ha
    simpa using hA a (List.mem_of_mem_filter ha)
  have e2 : (B.filter P).filter (fun s => C.contains s) = [] := by
    rw [List.filter_eq_nil_iff]
    intro b hb
    simpa using hB b (List.mem_of_mem_filter hb)
  have e3 : (C.filter P).filter (fun s => C.contains s) = C.filter P := by
    rw [List.filter_eq_self]
    intro c hc
    simpa using List.mem_of_mem_filter hc
  rw [e1, e2, e3, List.nil_append, List.nil_append]

lemma rulesOf_disjoint (rt : String) : bucketsDisjoint (rulesOf rt) := by
  have hmem : rulesOf rt ∈
      [livingRoomRules, bedroomRules, kitchenRules, diningRoomRules,
       bathroomRules, officeRules] := by
    unfold rulesOf
    cases h : room_furniture.lookup rt with
    | none => simp
    | some r =>
      have hm := lookup_mem_snd room_furniture rt r h
      simpa [room_furniture] using hm
  simp only [List.mem_cons, List.not_mem_nil, or_false] at hmem
  rcases hmem with h | h | h | h | h | h <;> rw [h] <;> unfold bucketsDisjoint <;> decide

/-- C3: the suggested-additions list is exactly the unmatched essentials (all
of them, in catalog order), then the first 3 unmatched common items, then the
first 2 unmatched luxury items, computed over the rules of the resolved room
type (`living_room`'s rules when the room type is not in the table, which is
what `rulesOf` folds in); its length is therefore
`len essential_remaining + min 3 (len common_remaining) + min 2 (len luxury_remaining)`. -/
theorem suggest_additions_priority (objs : List String) (rt : String) :
    _suggest_additions objs rt =
      (rulesOf rt).essential.filter (fun f => ! matchesAny (objs.map pyLower) f)
      ++ ((rulesOf rt).common.filter (fun f => ! matchesAny (objs.map pyLower) f)).take 3
      ++ ((rulesOf rt).luxury.filter (fun f => ! matchesAny (objs.map pyLower) f)).take 2
    ∧ (_suggest_additions objs rt).length =
        ((rulesOf rt).essential.filter (fun f => ! matchesAny (objs.map pyLower) f)).length
        + min 3 ((rulesOf rt).common.filter (fun f => ! matchesAny (objs.map pyLower) f)).length
        + min 2 ((rulesOf rt).luxury.filter (fun f => ! matchesAny (objs.map pyLower) f)).length := by
  obtain ⟨d1, d2, d3, d4, d5, d6⟩ := rulesOf_disjoint rt
  have he : (unmatchedCatalog objs (rulesOf rt)).filter
        (fun s => (rulesOf rt).essential.contains s)
      = (rulesOf rt).essential.filter (fun f => ! matchesAny (objs.map pyLower) f) :=
    filter_contains_append3_left _ _ _ _ d1 d2
  have hc : (unmatchedCatalog objs (rulesOf rt)).filter
        (fun s => (rulesOf rt).common.contains s)
      = (rulesOf rt).common.filter (fun f => ! matchesAny (objs.map pyLower) f) :=
    filter_contains_append3_mid _ _ _ _ d3 d4
  have hl : (unmatchedCatalog objs (rulesOf rt)).filter
        (fun s => (rulesOf rt).luxury.contains s)
      = (rulesOf rt).luxury.filter (fun f => ! matchesAny (objs.map pyLower) f) :=
    filter_contains_append3_right _ _ _ _ d5 d6
  have hmain : _suggest_additions objs rt =
      (rulesOf rt).essential.filter (fun f => ! matchesAny (objs.map pyLower) f)
      ++ ((rulesOf rt).common.filter (fun f => ! matchesAny (objs.map pyLower) f)).take 3
      ++ ((rulesOf rt).luxury.filter (fun f => ! matchesAny (objs.map pyLower) f)).take 2 := by
    simp only [_suggest_additions]
    rw [he, hc, hl]
  refine ⟨hmain, ?_⟩
  rw [hmain, List.length_append, List.length_append, List.length_take, List.length_take,
    Nat.add_assoc]

/-- C10: for a room type absent from the rules table,
`_find_missing_essentials` returns the empty list while `_suggest_additions`
substitutes `living_room`'s catalog, so an analysis under such a (non-empty)
forced room type reports no missing essentials yet suggests living-room
additions. -/
theorem unknown_room_type_asymmetry (objs : List String) (rt : String)
    (h : room_furniture.lookup rt = none) :
    _find_missing_essentials objs rt = []
    ∧ _suggest_additions objs rt = _suggest_additions objs "living_room"
    ∧ (rt ≠ "" →
        (analyze_room objs (some rt)).suggestions.missing_essentials = []
        ∧ (analyze_room objs (some rt)).suggestions.add_items
            = _suggest_additions objs "living_room") := by
  have hr : rulesOf rt = livingRoomRules := by simp [rulesOf, h]
  have hlr : rulesOf "living_room" = livingRoomRules := by decide
  have hm : _find_missing_essentials objs rt = [] := by
    simp [_find_missing_essentials, h]
  have hs : _suggest_additions objs rt = _suggest_additions objs "living_room" := by
    simp only [_suggest_additions, hr, hlr]
  refine ⟨hm, hs, fun hne => ⟨?_, ?_⟩⟩
  · simpa [analyze_room, hne] using hm
  · simpa [analyze_room, hne] using hs

/-- Witness for C10 at a concrete unknown room type. -/
theorem unknown_room_type_asymmetry_witness :
    _find_missing_essentials ["sofa"] "garage" = []
    ∧ (analyze_room ["sofa"] (some "garage")).suggestions.add_items
        = _suggest_additions ["sofa"] "living_room" := by
  have h := unknown_room_type_asymmetry ["sofa"] "garage" (by decide)
  exact ⟨h.1, (h.2.2 (by decide)).2⟩

lemma pyFold_keep (m : String × ℕ) :
    ∀ l : List (String × ℕ), (∀ y ∈ l, y.2 ≤ m.2) →
      l.foldl (fun b y => if b.2 < y.2 then y else b) m = m := by
  intro l
  induction l with
  | nil => intro _; rfl
  | cons y t ih =>
    intro h
    have hy : ¬ (m.2 < y.2) := Nat.not_lt.mpr (h y (List.mem_cons_self y t))
    simp only [List.foldl_cons, if_neg hy]
    exact ih (fun z hz => h z (List.mem_cons_of_mem y hz))

lemma pyFold_reach (m : String × ℕ) (L₂ : List (String × ℕ))
    (h₂ : ∀ y ∈ L₂, y.2 ≤ m.2) :
    ∀ (L₁ : List (String × ℕ)) (acc : String × ℕ), acc.2 < m.2 →
      (∀ y ∈ L₁, y.2 < m.2) →
      (L₁ ++ m :: L₂).foldl (fun b y => if b.2 < y.2 then y else b) acc = m := by
  intro L₁
  induction L₁ with
  | nil =>
    intro acc hacc _
    simp only [List.nil_append, List.foldl_cons, if_pos hacc]
    exact pyFold_keep m L₂ h₂
  | cons a t ih =>
    intro acc hacc h₁
    simp only [List.cons_append, List.foldl_cons]
    by_cases hb : acc.2 < a.2
    · rw [if_pos hb]
      exact ih a (h₁ a (List.mem_cons_self a t)) (fun y hy => h₁ y (List.mem_cons_of_mem a hy))
    · rw [if_neg hb]
      exact ih acc hacc (fun y hy => h₁ y (List.mem_cons_of_mem a hy))

lemma pyMax_first (L₁ L₂ : List (String × ℕ)) (m : String × ℕ)
    (h₁ : ∀ y ∈ L₁, y.2 < m.2) (h₂ : ∀ y ∈ L₂, y.2 ≤ m.2) :
    pyMax (L₁ ++ m :: L₂) = some m := by
  cases L₁ with
  | nil =>
    simp only [List.nil_append, pyMax]
    rw [pyFold_keep m L₂ h₂]
  | cons a t =>
    simp only [List.cons_append, pyMax]
    rw [pyFold_reach m L₂ h₂ t a (h₁ a (List.mem_cons_self a t))
      (fun y hy => h₁ y (List.mem_cons_of_mem a hy))]

lemma scoresFilter_entry (objs : List String) (R : List (String × List String)) :
    ∀ q ∈ R.filterMap (fun p =>
        if 0 < roomScore objs p.2 then some (p.1, roomScore objs p.2) else none),
      ∃ p ∈ R, q = (p.1, roomScore objs p.2) := by
  intro q hq
  simp only [List.mem_filterMap] at hq
  obtain ⟨p, hp, hpq⟩ := hq
  by_cases hz : 0 < roomScore objs p.2
  · rw [if_pos hz] at hpq
    exact ⟨p, hp, (Option.some_inj.mp hpq).symm⟩
  · rw [if_neg hz] at hpq
    cases hpq

lemma roomScores_split (objs : List String) (R₁ R₂ : List (String × List String))
    (rt : String) (inds : List String)
    (heq : room_indicators = R₁ ++ (rt, inds) :: R₂)
    (hpos : 0 < roomScore objs inds) :
    roomScores objs
      = R₁.filterMap (fun p =>
          if 0 < roomScore objs p.2 then some (p.1, roomScore objs p.2) else none)
        ++ (rt, roomScore objs inds)
        :: R₂.filterMap (fun p =>
          if 0 < roomScore objs p.2 then some (p.1, roomScore objs p.2) else none) := by
  rw [roomScores, heq, List.filterMap_append]
  simp [hpos]

/-- C5 counterexample: an empty forced room-type string is supplied yet not
used verbatim: Python truthiness makes `if force_room_type:` fall through to
scoring, which classifies `["bed"]` as `bedroom`, not as the supplied `""`. -/
theorem room_type_forced_empty_counterexample :
    (analyze_room ["bed"] (some "")).room_type = "bedroom"
    ∧ ("bedroom" : String) ≠ "" := by
  constructor
  · decide
  · decide

/-- C5 (amended): a NON-EMPTY forced room type is used verbatim, bypassing
scoring (an empty forced string is falsy in Python and is treated like an
absent one); otherwise each room type is scored by counting detected items
whose lowercased text contains one of its indicators, the first room type in
indicator-table order whose (positive) score is maximal wins, and when every
score is zero (in particular for the empty list) the default is
`living_room`. -/
theorem room_type_resolution (objs : List String) (f : Option String) :
    (∀ s, f = some s → s ≠ "" → (analyze_room objs f).room_type = s)
    ∧ ((f = none ∨ f = some "") →
        (analyze_room objs f).room_type = _identify_room_type objs)
    ∧ ((∀ p ∈ room_indicators, roomScore objs p.2 = 0) →
        _identify_room_type objs = "living_room")
    ∧ (∀ (R₁ R₂ : List (String × List String)) (rt : String) (inds : List String),
        room_indicators = R₁ ++ (rt, inds) :: R₂ →
        0 < roomScore objs inds →
        (∀ p ∈ R₁, roomScore objs p.2 < roomScore objs inds) →
        (∀ p ∈ R₂, roomScore objs p.2 ≤ roomScore objs inds) →
        _identify_room_type objs = rt) := by
  refine ⟨?_, ?_, ?_, ?_⟩
  · rintro s rfl hs
    simp [analyze_room, hs]
  · rintro (rfl | rfl) <;> simp [analyze_room]
  · intro hz
    have h0 : roomScores objs = [] := by
      rw [roomScores, List.filterMap_eq_nil_iff]
      intro p hp
      simp [hz p hp]
    simp [_identify_room_type, h0, pyMax]
  · intro R₁ R₂ rt inds heq hpos h₁ h₂
    have hm : pyMax (roomScores objs) = some (rt, roomScore objs inds) := by
      rw [roomScores_split objs R₁ R₂ rt inds heq hpos]
      apply pyMax_first
      · intro y hy
        obtain ⟨p, hp, rfl⟩ := scoresFilter_entry objs R₁ y hy
        exact h₁ p hp
      · intro y hy
        obtain ⟨p, hp, rfl⟩ := scoresFilter_entry objs R₂ y hy
        exact h₂ p hp
    simp [_identify_room_type, hm]

/-- Witness for C5: a forced room type used verbatim; the all-zero default;
and the first-in-order tie-break (`["bed", "sofa", "desk lamp"]` scores
bedroom, living_room and office 1 each, and bedroom is scanned first). -/
theorem room_type_resolution_witness :
    (analyze_room ["bed"] (some "bedroom")).room_type = "bedroom"
    ∧ (analyze_room [] none).room_type = "living_room"
    ∧ (analyze_room ["bed", "sofa", "desk lamp"] none).room_type = "bedroom" := by
  refine ⟨?_, ?_, ?_⟩
  · exact (room_type_resolution ["bed"] (some "bedroom")).1 "bedroom" rfl (by decide)
  · have h0 := (room_type_resolution [] none).2.1 (Or.inl rfl)
    have hz := (room_type_resolution [] none).2.2.1 (by decide)
    rw [h0, hz]
  · have h0 := (room_type_resolution ["bed", "sofa", "desk lamp"] none).2.1 (Or.inl rfl)
    have hw := (room_type_resolution ["bed", "sofa", "desk lamp"] none).2.2.2
      [] room_indicators.tail "bedroom" ["bed", "nightstand", "dresser", "wardrobe"]
      (by decide) (by decide) (by decide) (by decide)
    rw [h0, hw]

/-- C8 counterexample: under the claim's normalization (lowercase AND strip)
the detected item `" so"` matches the essential `"sofa"` (its stripped text
`"so"` is a substring of `"sofa"`), so `"sofa"` should not be reported
missing; the code lowercases but does not strip, so it reports `"sofa"`
missing for the living room. -/
theorem missing_essentials_trim_counterexample :
    "sofa" ∈ _find_missing_essentials [" so"] "living_room"
    ∧ isSub (pyStrip (pyLower " so")) "sofa" = true := by
  constructor <;> decide

/-- C8 (amended): matching in `_find_missing_essentials` is case-insensitive
but NOT whitespace-trimmed: for a room type present in the rules table, an
essential is missing iff no detected item's lowercased (untrimmed) text is a
substring of the essential's text or has the essential's text as a
substring; the essential list's order is preserved in the output. -/
theorem missing_essentials_spec (objs : List String) (rt : String)
    (rules : FurnitureRequirement) (h : room_furniture.lookup rt = some rules) :
    (∀ e, e ∈ _find_missing_essentials objs rt ↔
        e ∈ rules.essential
        ∧ ¬ ∃ d ∈ objs, (isSub e (pyLower d) || isSub (pyLower d) e) = true)
    ∧ (_find_missing_essentials objs rt).Sublist rules.essential := by
  have hdef : _find_missing_essentials objs rt
      = rules.essential.filter (fun e => ! matchesAny (objs.map pyLower) e) := by
    simp [_find_missing_essentials, h]
  constructor
  · intro e
    rw [hdef, List.mem_filter]
    simp [matchesAny]
  · rw [hdef]
    exact List.filter_sublist _

/-- Witness for C8: in a bedroom with a detected bed, the characterization
applies and the code reports exactly the other two essentials, in order. -/
theorem missing_essentials_spec_witness :
    ("nightstand" ∈ _find_missing_essentials ["bed"] "bedroom"
      ↔ ("nightstand" ∈ bedroomRules.essential
          ∧ ¬ ∃ d ∈ (["bed"] : List String),
              (isSub "nightstand" (pyLower d) || isSub (pyLower d) "nightstand") = true))
    ∧ _find_missing_essentials ["bed"] "bedroom" = ["nightstand", "wardrobe"] := by
  constructor
  · exact (missing_essentials_spec ["bed"] "bedroom" bedroomRules (by decide)).1 "nightstand"
  · decide

lemma cost_sum_mul (l : List LineItem) (r : ℚ) :
    (l.map (fun li => li.cost * r)).sum = (l.map (fun li => li.cost)).sum * r := by
  induction l with
  | nil => simp
  | cons a t ih =>
    simp only [List.map_cons, List.sum_cons, ih]
    ring

/-- C9: `_convert_to_inr` multiplies every line-item cost, the subtotal, the
installation and the total by the same multiplier, and the converted
breakdown still satisfies `total = subtotal + installation`,
`installation = subtotal * 0.10` and `subtotal = sum of line costs`
(exactly, in exact arithmetic). -/
theorem convert_to_inr_preserves_invariants (rate : ℚ) (bd : CostBreakdown)
    (h1 : bd.total = bd.subtotal + bd.installation)
    (h2 : bd.installation = bd.subtotal * (1 / 10))
    (h3 : bd.subtotal = (bd.items.map (fun li => li.cost)).sum) :
    (_convert_to_inr rate bd).items.map (fun li => li.cost)
        = bd.items.map (fun li => li.cost * rate)
    ∧ (_convert_to_inr rate bd).subtotal = bd.subtotal * rate
    ∧ (_convert_to_inr rate bd).installation = bd.installation * rate
    ∧ (_convert_to_inr rate bd).total = bd.total * rate
    ∧ (_convert_to_inr rate bd).total
        = (_convert_to_inr rate bd).subtotal + (_convert_to_inr rate bd).installation
    ∧ (_convert_to_inr rate bd).installation
        = (_convert_to_inr rate bd).subtotal * (1 / 10)
    ∧ (_convert_to_inr rate bd).subtotal
        = ((_convert_to_inr rate bd).items.map (fun li => li.cost)).sum := by
  refine ⟨?_, rfl, rfl, rfl, ?_, ?_, ?_⟩
  · show (bd.items.map _).map _ = _
    rw [List.map_map]
    rfl
  · show bd.total * rate = bd.subtotal * rate + bd.installation * rate
    rw [h1]
    ring
  · show bd.installation * rate = bd.subtotal * rate * (1 / 10)
    rw [h2]
    ring
  · have hit : (_convert_to_inr rate bd).items
        = bd.items.map (fun item =>
            { name := item.name, cost := item.cost * rate, quantity := item.quantity }) := rfl
    rw [hit, List.map_map]
    show bd.subtotal * rate = (bd.items.map (fun li => li.cost * rate)).sum
    rw [cost_sum_mul, h3]

/-- Witness for C9: the source multiplier 83 applied to a concrete breakdown
keeps the invariant `total = subtotal + installation`. -/
theorem convert_to_inr_preserves_invariants_witness :
    (_convert_to_inr USD_TO_INR sampleBreakdown).total
      = (_convert_to_inr USD_TO_INR sampleBreakdown).subtotal
        + (_convert_to_inr USD_TO_INR sampleBreakdown).installation
    ∧ (_convert_to_inr USD_TO_INR sampleBreakdown).total = 9130 := by
  constructor
  · exact (convert_to_inr_preserves_invariants USD_TO_INR sampleBreakdown
      (by norm_num [sampleBreakdown]) (by norm_num [sampleBreakdown])
      (by simp [sampleBreakdown])).2.2.2.2.1
  · norm_num [_convert_to_inr, sampleBreakdown, USD_TO_INR]

/-- Witness for C7 at the empty input. -/
theorem line_items_per_input_witness :
    (estimate_cost [] "budget").items = [] ∧ (estimate_cost [] "budget").total = 0 :=
  ⟨((line_items_per_input [] "budget").2.2.2 rfl).1,
   ((line_items_per_input [] "budget").2.2.2 rfl).2.2.2⟩

end InterioAI
